import Mathlib

/-!
Shallow embedding of the ChatSphere server core (`src/server.py`).

The server keeps `self.active_clients`, a plain Python list of
`(username, socket)` pairs.  We model sockets (outbound sinks) by `Nat`
identifiers and the registry by `List (String × Nat)`.  The SQLite-backed
credential store (`Database`) is modelled as a list of
`(username, password)` rows; the `UNIQUE` constraint on `username` makes
`INSERT` fail exactly when a row with that username already exists.

Write failures (`sock.sendall` raising) are modelled by a predicate
`failing : Nat → Bool` on sink identifiers.  The observable behaviour of a
run is a trace of `Event`s: successful deliveries (`sent`) and invocations
of the presence broadcast `broadcast_user_list` (`presence`).

`broadcast_user_list` and `remove_client` are mutually recursive in the
source (a failed send inside the presence fan-out removes the failing
client, which rebroadcasts).  The recursion depth is bounded in any real
run (each cascading call follows the removal of a failing client), and we
make it structural with an explicit `fuel` parameter that is consumed only
by the cascade; theorems supply enough fuel for the runs they describe.
-/

/-- `self.active_clients`: a list of `(username, socket)` pairs
(`server.py` line 108).  A socket is identified by a `Nat`. -/
abbrev Registry := List (String × Nat)

/-- The rows of the `users` table: `(username, password)` pairs. -/
abbrev Db := List (String × String)

/-- One framed JSON record written to a client socket. -/
inductive Payload where
  /-- `{"type": "user_list", "content": users}` -/
  | user_list (users : List String)
  /-- `{"type": "message", "sender": .., "content": .., "time": ..}` -/
  | message (sender content time : String)
  /-- `{"status": "success"}` -/
  | authSuccess
  /-- `{"status": "error", "message": msg}` -/
  | authError (msg : String)
deriving DecidableEq, Repr

/-- An observable step of a server run. -/
inductive Event where
  /-- `sock.sendall` succeeded on sink `sink` with record `p`. -/
  | sent (sink : Nat) (p : Payload)
  /-- `broadcast_user_list` ran with the listed usernames
  (one `presence` event per presence broadcast). -/
  | presence (users : List String)
deriving DecidableEq, Repr

/-- Recognise presence-broadcast events, for counting them in a trace. -/
def isPresence : Event → Bool
  | Event.presence _ => true
  | _ => false

/-- `Database.register_user` (`server.py` lines 54-73): `INSERT INTO users`
succeeds iff no row already has this username (`UNIQUE`), returning `True`
and the extended table; on `IntegrityError` (duplicate username, or a
`NULL` username/password violating `NOT NULL`) returns `False` with the
table unchanged. -/
def register_user (db : Db) : Option String → Option String → Bool × Db
  | some u, some p =>
    if db.any (fun r => r.1 == u) then (false, db) else (true, db ++ [(u, p)])
  | _, _ => (false, db)

/-- `Database.validate_user` (`server.py` lines 75-90): `SELECT 1 FROM users
WHERE username = ? AND password = ?` finds a row iff the exact pair is
present; a `NULL` argument matches no row. -/
def validate_user (db : Db) : Option String → Option String → Bool
  | some u, some p => db.any (fun r => r.1 == u && r.2 == p)
  | _, _ => false

/-- The one handshake record read by `ChatServer.handle_auth`:
`recv` returned no data (`eof`), data that is not valid JSON
(`malformed`), or a JSON object whose `action`/`username`/`password`
fields are read with `dict.get` (absent fields give `none`). -/
inductive AuthInput where
  | eof
  | malformed
  | packet (action username password : Option String)
deriving DecidableEq, Repr

/-- `ChatServer.handle_auth` (`server.py` lines 146-195).  Returns the
updated credential table, the acknowledgments written to the client's
socket `sock`, and the verdict (`some u` = authenticated as `u`, `none` =
rejected).  A JSON value that is not an object (e.g. `5`) would raise
`AttributeError` at `creds.get` with no handler and kill the thread; that
input is outside the modelled space. -/
def handle_auth (db : Db) (sock : Nat) : AuthInput → Db × List Event × Option String
  | AuthInput.eof => (db, [], none)
  | AuthInput.malformed =>
    (db, [Event.sent sock (Payload.authError "Invalid JSON")], none)
  | AuthInput.packet action user pwd =>
    if action = some "register" then
      let r := register_user db user pwd
      (r.2,
       [Event.sent sock
         (if r.1 then Payload.authSuccess
          else Payload.authError "Username already exists")],
       none)
    else if action = some "login" then
      if validate_user db user pwd then
        (db, [Event.sent sock Payload.authSuccess], user)
      else
        (db, [Event.sent sock (Payload.authError "Invalid credentials")], none)
    else
      (db, [Event.sent sock (Payload.authError "Unknown action")], none)

/-- The `for u, sock in list(self.active_clients)` send loop shared by
`ChatServer.broadcast_user_list` (lines 201-205) and
`ChatServer.broadcast_message` (lines 248-252): iterate over a snapshot
copy of the registry while the live registry mutates; a successful
`sendall` delivers `p` to that sink; a raising `sendall` runs
`self.remove_client(u)` (passed in as `onFail`, since `remove_client`
recursively rebroadcasts) and iteration continues with the rest of the
snapshot. -/
def send_loop (failing : Nat → Bool)
    (onFail : Registry → String → Registry × List Event) :
    Registry → Registry → Payload → Registry × List Event
  | clients, [], _ => (clients, [])
  | clients, (u, s) :: rest, p =>
    if failing s then
      let r := onFail clients u
      let r2 := send_loop failing onFail r.1 rest p
      (r2.1, r.2 ++ r2.2)
    else
      let r2 := send_loop failing onFail clients rest p
      (r2.1, Event.sent s p :: r2.2)

/-- `ChatServer.broadcast_user_list` (`server.py` lines 197-205): build the
username listing from the live registry, then send the `user_list` record
to every client, removing (and thereby rebroadcasting, with one unit of
`fuel` consumed) any client whose send fails.  The failure branch inlines
`self.remove_client(u)` = filter out `u`, then rebroadcast. -/
def broadcast_user_list : Nat → (Nat → Bool) → Registry → Registry × List Event
  | 0, _, clients => (clients, [])
  | fuel + 1, failing, clients =>
    let users := clients.map Prod.fst
    let r := send_loop failing
      (fun cs u => broadcast_user_list fuel failing (cs.filter (fun e => e.1 != u)))
      clients clients (Payload.user_list users)
    (r.1, Event.presence users :: r.2)

/-- `ChatServer.remove_client` (`server.py` lines 254-262): rebind
`self.active_clients` to the entries whose username differs from
`username`, then (unconditionally) `self.broadcast_user_list()`. -/
def remove_client (fuel : Nat) (failing : Nat → Bool) (clients : Registry)
    (username : String) : Registry × List Event :=
  broadcast_user_list fuel failing (clients.filter (fun e => e.1 != username))

/-- `ChatServer.broadcast_message` (`server.py` lines 242-252): the send
loop over a snapshot of the registry with the chat-message record;
failures run `self.remove_client(u)`. -/
def broadcast_message (fuel : Nat) (failing : Nat → Bool) (clients : Registry)
    (p : Payload) : Registry × List Event :=
  send_loop failing (fun cs u => remove_client fuel failing cs u)
    clients clients p

/-- The append performed by `ChatServer.client_handler` on successful login
(`server.py` line 137: `self.active_clients.append((username, client_sock))`)
followed by `self.broadcast_user_list()` (line 138). -/
def add_client (fuel : Nat) (failing : Nat → Bool) (clients : Registry)
    (username : String) (sink : Nat) : Registry × List Event :=
  broadcast_user_list fuel failing (clients ++ [(username, sink)])

/-- `ChatServer.client_handler` (`server.py` lines 125-144) up to the point
the message-listening thread is spawned: run `handle_auth`; a falsy result
(`None`, or the empty username, which Python's `if not username:` also
treats as falsy) closes the socket without registering; otherwise append
to the registry and broadcast the user list.  Returns the registry, the
credential table, the trace, and `some u` iff an active session for `u`
was created. -/
def client_handler (fuel : Nat) (failing : Nat → Bool) (clients : Registry)
    (db : Db) (sock : Nat) (inp : AuthInput) :
    Registry × Db × List Event × Option String :=
  let a := handle_auth db sock inp
  match a.2.2 with
  | none => (clients, a.1, a.2.1, none)
  | some u =>
    if u = "" then (clients, a.1, a.2.1, none)
    else
      let r := add_client fuel failing clients u sock
      (r.1, a.1, a.2.1 ++ r.2, some u)

/-- `datetime.now().strftime("%H:%M")` (`server.py` line 234): the
zero-padded hour, a colon, the zero-padded minute. -/
def strftime_HM (h m : Nat) : String :=
  (if h < 10 then "0" ++ toString h else toString h) ++ ":" ++
  (if m < 10 then "0" ++ toString m else toString m)

/-- The result of `json.loads(line)` followed by Python attribute access on
the value: `invalid` = `json.JSONDecodeError`; `nonDict` = valid JSON that
is not an object, so `pkt.get("type")` raises `AttributeError`; `obj` = a
JSON object, with its `type`, `content` and `sender` fields (absent
fields are `none`).  The decoder itself is external (the `json` library),
so message-processing functions take it as a parameter
`parse : List Char → Parsed`. -/
inductive Parsed where
  | invalid
  | nonDict
  | obj (ty : Option String) (content : Option String) (sender : Option String)
deriving DecidableEq, Repr

/-- Handling of one framed line inside the inner `while "\n" in buffer`
loop of `ChatServer.listen_for_messages` (`server.py` lines 221-236):
a whitespace-only line is skipped (`if not line.strip(): continue`); a
JSON decode error is skipped (`continue`); a record whose `type` is not
`"message"` falls through silently; a `"message"` record yields the
broadcast payload built with the authenticated `username` and the
server clock — but `pkt["content"]` on a record with no `content` field
raises `KeyError` (and a non-object raises `AttributeError` at
`pkt.get`), which the surrounding bare `except` turns into a disconnect:
modelled as `Except.error ()`. -/
def handle_line (parse : List Char → Parsed) (username : String) (h m : Nat)
    (line : List Char) : Except Unit (Option Payload) :=
  if line.all Char.isWhitespace then Except.ok none
  else
    match parse line with
    | Parsed.invalid => Except.ok none
    | Parsed.nonDict => Except.error ()
    | Parsed.obj ty content _sender =>
      if ty = some "message" then
        match content with
        | some c => Except.ok (some (Payload.message username c (strftime_HM h m)))
        | none => Except.error ()
      else Except.ok none

/-- The inner framed-line loop of `ChatServer.listen_for_messages` over the
complete lines extracted from the buffer: a skipped line leaves everything
unchanged; a chat message is handed to `broadcast_message`; an exception
aborts the loop — the bare `except` at lines 237-240 runs
`self.remove_client(username)` and breaks.  The final `Bool` is `true`
while the listening loop is still alive. -/
def process_lines (fuel : Nat) (failing : Nat → Bool)
    (parse : List Char → Parsed) (username : String) (h m : Nat) :
    Registry → List (List Char) → Registry × List Event × Bool
  | clients, [] => (clients, [], true)
  | clients, l :: ls =>
    match handle_line parse username h m l with
    | Except.error _ =>
      let r := remove_client fuel failing clients username
      (r.1, r.2, false)
    | Except.ok none => process_lines fuel failing parse username h m clients ls
    | Except.ok (some p) =>
      let r := broadcast_message fuel failing clients p
      let r2 := process_lines fuel failing parse username h m r.1 ls
      (r2.1, r.2 ++ r2.2.1, r2.2.2)

/-- The incremental framing of `ChatServer.listen_for_messages`
(`server.py` lines 220-222): `buffer += data` then repeatedly
`line, buffer = buffer.split("\n", 1)` while a terminator is present.
Returns the complete lines in order and the remaining buffer. -/
def split_lines : List Char → List (List Char) × List Char
  | [] => ([], [])
  | c :: rest =>
    let r := split_lines rest
    if c = '\n' then ([] :: r.1, r.2)
    else
      match r.1 with
      | [] => ([], c :: r.2)
      | l :: ls => ((c :: l) :: ls, r.2)

/-- One iteration of the outer `while True` receive loop of
`ChatServer.listen_for_messages` (`server.py` lines 215-240): `recv`
returning no data raises `ConnectionError`, caught by the bare `except`
(remove the client, break); otherwise append `data` to the framing
buffer, extract the complete lines, and process them.  Returns the
registry, the trace, the new buffer, and whether the loop is still
alive. -/
def recv_step (fuel : Nat) (failing : Nat → Bool)
    (parse : List Char → Parsed) (username : String) (h m : Nat)
    (clients : Registry) (buffer data : List Char) :
    Registry × List Event × List Char × Bool :=
  if data.isEmpty then
    let r := remove_client fuel failing clients username
    (r.1, r.2, buffer, false)
  else
    let s := split_lines (buffer ++ data)
    let r := process_lines fuel failing parse username h m clients s.1
    (r.1, r.2.1, s.2, r.2.2)

example :
    split_lines ("ab\ncd\ne".toList) = ([['a','b'], ['c','d']], ['e']) := by
  decide

example :
    register_user [("yosif", "1010")] (some "yosif") (some "x")
      = (false, [("yosif", "1010")]) := by decide

example :
    broadcast_user_list 1 (fun _ => false) [("a", 0), ("b", 1)]
      = ([("a", 0), ("b", 1)],
         [Event.presence ["a", "b"],
          Event.sent 0 (Payload.user_list ["a", "b"]),
          Event.sent 1 (Payload.user_list ["a", "b"])]) := by decide

example :
    broadcast_message 1 (fun s => s == 1) [("a", 0), ("b", 1), ("c", 2)]
      (Payload.message "a" "hi" "09:05")
      = ([("a", 0), ("c", 2)],
         [Event.sent 0 (Payload.message "a" "hi" "09:05"),
          Event.presence ["a", "c"],
          Event.sent 0 (Payload.user_list ["a", "c"]),
          Event.sent 2 (Payload.user_list ["a", "c"]),
          Event.sent 2 (Payload.message "a" "hi" "09:05")]) := by decide

/-! ## General lemmas about clean (failure-free) runs -/

/-- If no sink in the snapshot fails, the send loop delivers the payload to
every snapshot entry, in order, and leaves the live registry untouched. -/
theorem send_loop_clean (failing : Nat → Bool)
    (onFail : Registry → String → Registry × List Event)
    (clients snapshot : Registry) (p : Payload)
    (h : ∀ e ∈ snapshot, failing e.2 = false) :
    send_loop failing onFail clients snapshot p
      = (clients, snapshot.map (fun e => Event.sent e.2 p)) := by
  induction snapshot with
  | nil => rfl
  | cons e rest ih =>
    obtain ⟨u, s⟩ := e
    have hs : failing s = false := h (u, s) (List.mem_cons_self _ _)
    simp [send_loop, hs, ih (fun e he => h e (List.mem_cons_of_mem _ he))]

/-- A clean prefix of the snapshot contributes its deliveries and nothing
else; the loop then continues on the remaining snapshot. -/
theorem send_loop_append_clean (failing : Nat → Bool)
    (onFail : Registry → String → Registry × List Event)
    (clients : Registry) (a rest : Registry) (p : Payload)
    (h : ∀ e ∈ a, failing e.2 = false) :
    send_loop failing onFail clients (a ++ rest) p
      = ((send_loop failing onFail clients rest p).1,
         a.map (fun e => Event.sent e.2 p)
           ++ (send_loop failing onFail clients rest p).2) := by
  induction a with
  | nil => simp
  | cons e a ih =>
    obtain ⟨u, s⟩ := e
    have hs : failing s = false := h (u, s) (List.mem_cons_self _ _)
    simp [send_loop, hs, ih (fun e he => h e (List.mem_cons_of_mem _ he))]

/-- A presence broadcast over a registry with no failing sink emits one
`presence` event and delivers the listing to every client. -/
theorem broadcast_user_list_clean (fuel : Nat) (failing : Nat → Bool)
    (clients : Registry)
    (h : ∀ e ∈ clients, failing e.2 = false) :
    broadcast_user_list (fuel + 1) failing clients
      = (clients,
         Event.presence (clients.map Prod.fst)
           :: clients.map (fun e => Event.sent e.2
                (Payload.user_list (clients.map Prod.fst)))) := by
  simp [broadcast_user_list, send_loop_clean _ _ _ _ _ h]

/-- A chat-message broadcast over a registry with no failing sink delivers
the record to every client and leaves the registry untouched. -/
theorem broadcast_message_clean (fuel : Nat) (failing : Nat → Bool)
    (clients : Registry) (p : Payload)
    (h : ∀ e ∈ clients, failing e.2 = false) :
    broadcast_message fuel failing clients p
      = (clients, clients.map (fun e => Event.sent e.2 p)) :=
  send_loop_clean _ _ _ _ _ h

/-- Unfolding: a presence broadcast is one `presence` event followed by
the send loop of the listing, i.e. a `broadcast_message` of the
`user_list` record at one unit of fuel less. -/
theorem broadcast_user_list_succ (fuel : Nat) (failing : Nat → Bool)
    (clients : Registry) :
    broadcast_user_list (fuel + 1) failing clients
      = ((broadcast_message fuel failing clients
            (Payload.user_list (clients.map Prod.fst))).1,
         Event.presence (clients.map Prod.fst)
           :: (broadcast_message fuel failing clients
                (Payload.user_list (clients.map Prod.fst))).2) := rfl

/-- No `sent` event counts as a presence broadcast. -/
theorem countP_isPresence_map (l : Registry) (f : String × Nat → Event)
    (hf : ∀ e, isPresence (f e) = false) :
    (l.map f).countP isPresence = 0 := by
  induction l with
  | nil => rfl
  | cons e rest ih => simp [List.countP_cons, hf, ih]

/-- Specialisation: a block of deliveries of one payload contains no
presence broadcast. -/
theorem countP_isPresence_sent (l : Registry) (q : Payload) :
    (l.map (fun e => Event.sent e.2 q)).countP isPresence = 0 :=
  countP_isPresence_map l _ (fun _ => rfl)

/-- Entries surviving the removal of `u0` from a registry whose only
failing entry is `(u0, s0)` are all non-failing. -/
theorem filter_clean_of_one_failure (failing : Nat → Bool) (a b : Registry)
    (u0 : String) (s0 : Nat)
    (ha : ∀ e ∈ a, failing e.2 = false) (hb : ∀ e ∈ b, failing e.2 = false) :
    ∀ e ∈ (a ++ (u0, s0) :: b).filter (fun e => e.1 != u0),
      failing e.2 = false := by
  intro e he
  have hp := List.of_mem_filter he
  have hm := List.mem_of_mem_filter he
  rcases List.mem_append.mp hm with h1 | h2
  · exact ha e h1
  · rcases List.mem_cons.mp h2 with rfl | h3
    · simp at hp
    · exact hb e h3

/-- Core computation for a fan-out with exactly one failing entry
`(u0, s0)`: the loop delivers `p` to the clean prefix, hits the failure,
removes every entry keyed `u0` and rebroadcasts the presence listing to
the survivors, then resumes delivering `p` to the clean suffix of the
snapshot. -/
theorem broadcast_one_failure (fuel : Nat) (failing : Nat → Bool)
    (a b F : Registry) (u0 : String) (s0 : Nat) (p : Payload)
    (ha : ∀ e ∈ a, failing e.2 = false) (hb : ∀ e ∈ b, failing e.2 = false)
    (hf : failing s0 = true)
    (hF : F = (a ++ (u0, s0) :: b).filter (fun e => e.1 != u0)) :
    broadcast_message (fuel + 1) failing (a ++ (u0, s0) :: b) p
      = (F,
         a.map (fun e => Event.sent e.2 p)
           ++ ((Event.presence (F.map Prod.fst)
                  :: F.map (fun e => Event.sent e.2
                       (Payload.user_list (F.map Prod.fst))))
               ++ b.map (fun e => Event.sent e.2 p))) := by
  have hFclean : ∀ e ∈ F, failing e.2 = false := by
    rw [hF]; exact filter_clean_of_one_failure failing a b u0 s0 ha hb
  have h1 :
      send_loop failing (fun cs u => remove_client (fuel + 1) failing cs u)
        (a ++ (u0, s0) :: b) ((u0, s0) :: b) p
        = (F, (Event.presence (F.map Prod.fst)
                 :: F.map (fun e => Event.sent e.2
                      (Payload.user_list (F.map Prod.fst))))
              ++ b.map (fun e => Event.sent e.2 p)) := by
    have hrm : remove_client (fuel + 1) failing (a ++ (u0, s0) :: b) u0
        = (F, Event.presence (F.map Prod.fst)
               :: F.map (fun e => Event.sent e.2
                    (Payload.user_list (F.map Prod.fst)))) := by
      rw [remove_client, ← hF, broadcast_user_list_clean fuel failing F hFclean]
    simp [send_loop, hf, hrm, send_loop_clean _ _ _ _ _ hb]
  rw [broadcast_message, send_loop_append_clean _ _ _ _ _ _ ha, h1]

/-! ## Claim theorems -/

/-- C9: if the first read on a new connection during the handshake returns
end-of-stream, the server closes the connection without sending any
handshake response at all — no success and no error acknowledgment is
written, the registry is untouched, and no active session is created
(`handle_auth` returns `None` at `if not raw:` without a `sendall`, and
`client_handler` then closes the socket). -/
theorem C9_eof_auth_silent_close (fuel : Nat) (failing : Nat → Bool)
    (clients : Registry) (db : Db) (sock : Nat) :
    client_handler fuel failing clients db sock AuthInput.eof
      = (clients, db, [], none) := rfl

/-- C4: a register handshake `{action: "register", username: u, password: p}`
succeeds iff `u` is not already a username in the credential store; on
success the server acknowledges with success and the store gains the row
`(u, p)`, on a duplicate username it acknowledges with the error
"Username already exists" and the store is unchanged; in both cases the
verdict is rejection: the connection is not added to the registry and no
active session is created. -/
theorem C4_register_handshake (fuel : Nat) (failing : Nat → Bool)
    (clients : Registry) (db : Db) (sock : Nat) (u p : String) :
    handle_auth db sock (AuthInput.packet (some "register") (some u) (some p))
      = ((if db.any (fun r => r.1 == u) then db else db ++ [(u, p)]),
         [Event.sent sock (if db.any (fun r => r.1 == u)
            then Payload.authError "Username already exists"
            else Payload.authSuccess)],
         none) ∧
    client_handler fuel failing clients db sock
        (AuthInput.packet (some "register") (some u) (some p))
      = (clients,
         (if db.any (fun r => r.1 == u) then db else db ++ [(u, p)]),
         [Event.sent sock (if db.any (fun r => r.1 == u)
            then Payload.authError "Username already exists"
            else Payload.authSuccess)],
         none) := by
  cases hq : db.any (fun r => r.1 == u) <;>
    simp [handle_auth, client_handler, register_user, hq]

/-- C5: a login handshake `{action: "login", username: u, password: p}`
is validated against the exact pair `(u, p)` in the credential store; on a
match the server acknowledges with success and the verdict is
`Authenticated u`; otherwise it acknowledges with the error
"Invalid credentials", the verdict is rejection, and the connection is
not registered. -/
theorem C5_login_handshake (fuel : Nat) (failing : Nat → Bool)
    (clients : Registry) (db : Db) (sock : Nat) (u p : String) :
    (validate_user db (some u) (some p) = true ↔ (u, p) ∈ db) ∧
    handle_auth db sock (AuthInput.packet (some "login") (some u) (some p))
      = (db,
         [Event.sent sock (if validate_user db (some u) (some p)
            then Payload.authSuccess
            else Payload.authError "Invalid credentials")],
         (if validate_user db (some u) (some p) then some u else none)) ∧
    (validate_user db (some u) (some p) = false →
      client_handler fuel failing clients db sock
          (AuthInput.packet (some "login") (some u) (some p))
        = (clients, db,
           [Event.sent sock (Payload.authError "Invalid credentials")],
           none)) := by
  refine ⟨?_, ?_, ?_⟩
  · rw [validate_user, List.any_eq_true]
    constructor
    · rintro ⟨⟨x, y⟩, hm, hxy⟩
      simp only [Bool.and_eq_true, beq_iff_eq] at hxy
      obtain ⟨rfl, rfl⟩ := hxy
      exact hm
    · intro hm
      exact ⟨(u, p), hm, by simp⟩
  · cases hv : validate_user db (some u) (some p) <;>
      simp [handle_auth, hv]
  · intro hv
    simp [client_handler, handle_auth, hv]

/-- C5 witness: with the default credential table, a login with the wrong
password is rejected with "Invalid credentials" and the connection is not
registered. -/
theorem C5_login_handshake_witness :
    validate_user [("yosif", "1010")] (some "yosif") (some "wrong") = false ∧
    client_handler 1 (fun _ => false) [] [("yosif", "1010")] 3
        (AuthInput.packet (some "login") (some "yosif") (some "wrong"))
      = ([], [("yosif", "1010")],
         [Event.sent 3 (Payload.authError "Invalid credentials")], none) :=
  ⟨by decide,
   (C5_login_handshake 1 (fun _ => false) [] [("yosif", "1010")] 3
      "yosif" "wrong").2.2 (by decide)⟩

/-- C2 counterexample: two logins under the username "a" (on sinks 0 and
1, no send failing) leave the registry with two coexisting entries keyed
"a" — `client_handler` appends without checking for the key, so after the
second `add` the registry is `[("a", 0), ("a", 1)]` and the number of
entries keyed "a" is 2, refuting "at most one entry is keyed by any
username" and "add overwrites the existing entry". -/
theorem C2_duplicate_add_coexists :
    (add_client 1 (fun _ => false)
        ((add_client 1 (fun _ => false) [] "a" 0).1) "a" 1).1
      = [("a", 0), ("a", 1)] ∧
    ((add_client 1 (fun _ => false)
        ((add_client 1 (fun _ => false) [] "a" 0).1) "a" 1).1.countP
        (fun e => e.1 == "a")) = 2 := by decide

/-- C2 amended: the registry is a plain list and `add` appends: a login
under an already-present username produces a second coexisting entry for
that key (no overwrite, no rejection); both entries — the older and the
newer — receive every subsequent broadcast until a remove deletes all
entries with that username. -/
theorem C2_add_appends_amended (fuel : Nat) (failing : Nat → Bool)
    (clients : Registry) (u : String) (s : Nat)
    (hclean : ∀ e ∈ clients ++ [(u, s)], failing e.2 = false) :
    (add_client (fuel + 1) failing clients u s).1 = clients ++ [(u, s)] ∧
    (∀ e ∈ clients ++ [(u, s)],
      Event.sent e.2 (Payload.user_list ((clients ++ [(u, s)]).map Prod.fst))
        ∈ (add_client (fuel + 1) failing clients u s).2) := by
  rw [add_client, broadcast_user_list_clean fuel failing _ hclean]
  refine ⟨rfl, fun e he => ?_⟩
  exact List.mem_cons_of_mem _ (List.mem_map_of_mem _ he)

/-- C2 amended witness: with "a" already registered on sink 0, adding
"a" again on sink 1 yields the two coexisting entries, and both sinks
receive the new user-list broadcast. -/
theorem C2_add_appends_amended_witness :
    (∀ e ∈ ([("a", 0)] : Registry) ++ [("a", 1)], (fun _ => false) e.2 = false) ∧
    (add_client 1 (fun _ => false) [("a", 0)] "a" 1).1 = [("a", 0), ("a", 1)] ∧
    Event.sent 0 (Payload.user_list ["a", "a"])
        ∈ (add_client 1 (fun _ => false) [("a", 0)] "a" 1).2 ∧
    Event.sent 1 (Payload.user_list ["a", "a"])
        ∈ (add_client 1 (fun _ => false) [("a", 0)] "a" 1).2 := by
  have h := C2_add_appends_amended 0 (fun _ => false) [("a", 0)] "a" 1
    (by decide)
  exact ⟨by decide, h.1,
    h.2 ("a", 0) (by decide), h.2 ("a", 1) (by decide)⟩

/-- C10: `remove_client u` deletes every registry entry whose key equals
`u` (the Python list comprehension keeps only entries with a different
username), not just one; entries keyed by other usernames all survive,
and the surviving registry is a sublist of the original, i.e. the
original relative order is preserved. -/
theorem C10_remove_deletes_all_matching (fuel : Nat) (failing : Nat → Bool)
    (clients : Registry) (u : String)
    (hclean : ∀ e ∈ clients, failing e.2 = false) :
    (∀ e ∈ (remove_client (fuel + 1) failing clients u).1, e.1 ≠ u) ∧
    (∀ e ∈ clients, e.1 ≠ u → e ∈ (remove_client (fuel + 1) failing clients u).1) ∧
    (remove_client (fuel + 1) failing clients u).1.Sublist clients := by
  have hF : ∀ e ∈ clients.filter (fun e => e.1 != u), failing e.2 = false :=
    fun e he => hclean e (List.mem_of_mem_filter he)
  rw [remove_client, broadcast_user_list_clean fuel failing _ hF]
  refine ⟨fun e he => ?_, fun e he hne => ?_, List.filter_sublist _⟩
  · have := List.of_mem_filter he
    simpa using this
  · exact List.mem_filter.mpr ⟨he, by simpa using hne⟩

/-- C10 witness: with "a" present twice (sinks 0 and 2) and "b" on sink 1,
a single `remove_client "a"` leaves no entry keyed "a" and keeps
`("b", 1)`. -/
theorem C10_remove_deletes_all_matching_witness :
    (∀ e ∈ ([("a", 0), ("b", 1), ("a", 2)] : Registry),
      (fun _ => false) e.2 = false) ∧
    (∀ e ∈ (remove_client 1 (fun _ => false)
        [("a", 0), ("b", 1), ("a", 2)] "a").1, e.1 ≠ "a") ∧
    ("b", 1) ∈ (remove_client 1 (fun _ => false)
        [("a", 0), ("b", 1), ("a", 2)] "a").1 := by
  have h := C10_remove_deletes_all_matching 0 (fun _ => false)
    [("a", 0), ("b", 1), ("a", 2)] "a" (by decide)
  exact ⟨by decide, h.1, h.2.1 ("b", 1) (by decide) (by decide)⟩

/-- C7 counterexample: removing the absent username "bob" from the
registry `[("alice", 0)]` leaves the registry unchanged but still
triggers a presence broadcast — `remove_client` calls
`broadcast_user_list` unconditionally, so the trace contains a `presence`
event (and the listing is delivered to "alice"), refuting "no presence
broadcast is triggered". -/
theorem C7_absent_remove_still_broadcasts :
    (remove_client 1 (fun _ => false) [("alice", 0)] "bob").1
      = [("alice", 0)] ∧
    Event.presence ["alice"]
      ∈ (remove_client 1 (fun _ => false) [("alice", 0)] "bob").2 ∧
    Event.sent 0 (Payload.user_list ["alice"])
      ∈ (remove_client 1 (fun _ => false) [("alice", 0)] "bob").2 := by
  decide

/-- C7 amended: removing an absent username leaves the registry state
unchanged, but it is not a complete no-op: `remove_client` rebroadcasts
the presence listing unconditionally, so exactly one presence broadcast
is still triggered and the unchanged user list is delivered to every
client. -/
theorem C7_absent_remove_amended (fuel : Nat) (failing : Nat → Bool)
    (clients : Registry) (u : String)
    (hclean : ∀ e ∈ clients, failing e.2 = false)
    (habsent : ∀ e ∈ clients, e.1 ≠ u) :
    remove_client (fuel + 1) failing clients u
      = (clients,
         Event.presence (clients.map Prod.fst)
           :: clients.map (fun e => Event.sent e.2
                (Payload.user_list (clients.map Prod.fst)))) := by
  have hid : clients.filter (fun e => e.1 != u) = clients := by
    rw [List.filter_eq_self]
    intro e he
    simpa using habsent e he
  rw [remove_client, hid, broadcast_user_list_clean fuel failing _ hclean]

/-- C7 amended witness: removing "bob" from `[("alice", 0)]` keeps the
state and emits exactly the presence broadcast of `["alice"]`. -/
theorem C7_absent_remove_amended_witness :
    (∀ e ∈ ([("alice", 0)] : Registry), (fun _ => false) e.2 = false) ∧
    (∀ e ∈ ([("alice", 0)] : Registry), e.1 ≠ "bob") ∧
    remove_client 1 (fun _ => false) [("alice", 0)] "bob"
      = ([("alice", 0)],
         [Event.presence ["alice"],
          Event.sent 0 (Payload.user_list ["alice"])]) :=
  ⟨by decide, by decide,
   C7_absent_remove_amended 0 (fun _ => false) [("alice", 0)] "bob"
     (by decide) (by decide)⟩

/-- C6: during a broadcast over a registry snapshot — a chat message
(`broadcast_message`) or a presence listing (`broadcast_user_list`) —
whose only failing entry is `(u0, s0)`, the write failure on that one
sink does not prevent delivery of the same payload to every other
(non-failing) sink of the snapshot; the failure triggers
`remove_client u0`, so the resulting registry is the snapshot with every
entry keyed `u0` deleted; and that removal cascades exactly one
additional presence broadcast (one `presence` event for the chat-message
fan-out; the presence fan-out's own `presence` event plus exactly one
more). -/
theorem C6_broadcast_partial_failure (fuel : Nat) (failing : Nat → Bool)
    (a b : Registry) (u0 : String) (s0 : Nat) (p : Payload)
    (ha : ∀ e ∈ a, failing e.2 = false) (hb : ∀ e ∈ b, failing e.2 = false)
    (hf : failing s0 = true) :
    (∀ e ∈ a ++ (u0, s0) :: b, failing e.2 = false →
      Event.sent e.2 p
        ∈ (broadcast_message (fuel + 1) failing (a ++ (u0, s0) :: b) p).2) ∧
    (broadcast_message (fuel + 1) failing (a ++ (u0, s0) :: b) p).1
      = (a ++ (u0, s0) :: b).filter (fun e => e.1 != u0) ∧
    (broadcast_message (fuel + 1) failing
        (a ++ (u0, s0) :: b) p).2.countP isPresence = 1 ∧
    (∀ e ∈ a ++ (u0, s0) :: b, failing e.2 = false →
      Event.sent e.2 (Payload.user_list ((a ++ (u0, s0) :: b).map Prod.fst))
        ∈ (broadcast_user_list (fuel + 2) failing (a ++ (u0, s0) :: b)).2) ∧
    (broadcast_user_list (fuel + 2) failing (a ++ (u0, s0) :: b)).1
      = (a ++ (u0, s0) :: b).filter (fun e => e.1 != u0) ∧
    (broadcast_user_list (fuel + 2) failing
        (a ++ (u0, s0) :: b)).2.countP isPresence = 2 := by
  have hcore := fun q => broadcast_one_failure fuel failing a b
    ((a ++ (u0, s0) :: b).filter (fun e => e.1 != u0)) u0 s0 q ha hb hf rfl
  have hmem : ∀ q : Payload, ∀ e ∈ a ++ (u0, s0) :: b, failing e.2 = false →
      Event.sent e.2 q
        ∈ (broadcast_message (fuel + 1) failing (a ++ (u0, s0) :: b) q).2 := by
    intro q e he hcl
    rw [hcore q]
    rcases List.mem_append.mp he with h1 | h2
    · exact List.mem_append_left _ (List.mem_map_of_mem _ h1)
    · rcases List.mem_cons.mp h2 with rfl | h3
      · rw [hf] at hcl; cases hcl
      · exact List.mem_append_right _
          (List.mem_append_right _ (List.mem_map_of_mem _ h3))
  have hcount : ∀ q : Payload,
      (broadcast_message (fuel + 1) failing
        (a ++ (u0, s0) :: b) q).2.countP isPresence = 1 := by
    intro q
    rw [hcore q]
    rw [List.countP_append, List.countP_append, List.countP_cons]
    rw [countP_isPresence_sent, countP_isPresence_sent, countP_isPresence_sent]
    rfl
  have hbul : broadcast_user_list (fuel + 2) failing (a ++ (u0, s0) :: b)
      = ((broadcast_message (fuel + 1) failing (a ++ (u0, s0) :: b)
            (Payload.user_list ((a ++ (u0, s0) :: b).map Prod.fst))).1,
         Event.presence ((a ++ (u0, s0) :: b).map Prod.fst)
           :: (broadcast_message (fuel + 1) failing (a ++ (u0, s0) :: b)
                (Payload.user_list ((a ++ (u0, s0) :: b).map Prod.fst))).2) :=
    broadcast_user_list_succ (fuel + 1) failing _
  refine ⟨hmem p, (congrArg Prod.fst (hcore p)), hcount p, ?_, ?_, ?_⟩
  · intro e he hcl
    rw [hbul]
    exact List.mem_cons_of_mem _ (hmem _ e he hcl)
  · rw [hbul, (congrArg Prod.fst (hcore _))]
  · rw [hbul]
    simp only [List.countP_cons, hcount]
    rfl

/-- C6 witness: in the registry `[("a", 0), ("b", 1), ("c", 2)]` with only
sink 1 failing, a chat broadcast still reaches sinks 0 and 2, removes
"b", and cascades exactly one presence broadcast. -/
theorem C6_broadcast_partial_failure_witness :
    (∀ e ∈ ([("a", 0)] : Registry), (fun s => s == 1) e.2 = false) ∧
    (∀ e ∈ ([("c", 2)] : Registry), (fun s => s == 1) e.2 = false) ∧
    ((fun s => s == 1) 1 = true) ∧
    (Event.sent 0 (Payload.message "a" "hi" "09:05")
        ∈ (broadcast_message 1 (fun s => s == 1)
            ([("a", 0)] ++ ("b", 1) :: [("c", 2)])
            (Payload.message "a" "hi" "09:05")).2) ∧
    (broadcast_message 1 (fun s => s == 1)
        ([("a", 0)] ++ ("b", 1) :: [("c", 2)])
        (Payload.message "a" "hi" "09:05")).1
      = ([("a", 0)] ++ ("b", 1) :: [("c", 2)]).filter (fun e => e.1 != "b") ∧
    (broadcast_message 1 (fun s => s == 1)
        ([("a", 0)] ++ ("b", 1) :: [("c", 2)])
        (Payload.message "a" "hi" "09:05")).2.countP isPresence = 1 := by
  have h := C6_broadcast_partial_failure 0 (fun s => s == 1)
    [("a", 0)] [("c", 2)] "b" 1 (Payload.message "a" "hi" "09:05")
    (by decide) (by decide) (by decide)
  exact ⟨by decide, by decide, by decide,
    h.1 ("a", 0) (by decide) (by decide), h.2.1, h.2.2.1⟩

/-- The server-stamped `strftime("%H:%M")` string is never empty. -/
theorem strftime_HM_ne_empty (hh mm : Nat) : strftime_HM hh mm ≠ "" := by
  intro hcontra
  have hl := congrArg String.length hcontra
  rw [strftime_HM, String.length_append, String.length_append] at hl
  have h1 : String.length ":" = 1 := by decide
  have h0 : String.length "" = 0 := by decide
  rw [h1, h0] at hl
  omega

/-- A chunk without a terminator extracts no line and stays in the
buffer. -/
theorem split_lines_no_newline (l : List Char) (h : '\n' ∉ l) :
    split_lines l = ([], l) := by
  induction l with
  | nil => rfl
  | cons c rest ih =>
    have hc : ¬(c = '\n') := fun e => h (e ▸ List.mem_cons_self _ _)
    have hr : '\n' ∉ rest := fun hm => h (List.mem_cons_of_mem _ hm)
    simp [split_lines, ih hr, hc]

/-- Splitting off the first terminated line: the bytes before the first
`'\n'` form one line and framing continues on the rest. -/
theorem split_lines_append (l1 l2 : List Char) (h : '\n' ∉ l1) :
    split_lines (l1 ++ '\n' :: l2)
      = (l1 :: (split_lines l2).1, (split_lines l2).2) := by
  induction l1 with
  | nil => simp [split_lines]
  | cons c rest ih =>
    have hc : ¬(c = '\n') := fun e => h (e ▸ List.mem_cons_self _ _)
    have hr : '\n' ∉ rest := fun hm => h (List.mem_cons_of_mem _ hm)
    simp [split_lines, ih hr, hc]

/-- C1 amended: when a framed line parses as a JSON object with
`type = "message"` and a present `content` field `c` — whether `c` is
empty or not — the server hands exactly one record to the broadcast, and
(with no sink failing) that record `{type: "message", sender: username,
content: c, time: strftime_HM h m}` is delivered exactly once to every
sink in the registry snapshot, including the sender's own entry; the
`sender` field is the authenticated `username` regardless of any `sender`
field `sd` the client supplied, and the server-chosen "HH:MM" timestamp
is non-empty.  (The original claim's exclusion of empty content does not
hold: the code never checks `content` for emptiness.) -/
theorem C1_message_broadcast_amended (fuel : Nat) (failing : Nat → Bool)
    (parse : List Char → Parsed) (username : String) (h m : Nat) (c : String)
    (sd : Option String) (line : List Char) (clients : Registry)
    (ls : List (List Char))
    (hblank : line.all Char.isWhitespace = false)
    (hp : parse line = Parsed.obj (some "message") (some c) sd)
    (hclean : ∀ e ∈ clients, failing e.2 = false) :
    process_lines fuel failing parse username h m clients (line :: ls)
      = ((process_lines fuel failing parse username h m clients ls).1,
         clients.map (fun e => Event.sent e.2
             (Payload.message username c (strftime_HM h m)))
           ++ (process_lines fuel failing parse username h m clients ls).2.1,
         (process_lines fuel failing parse username h m clients ls).2.2) ∧
    strftime_HM h m ≠ "" := by
  have hline : handle_line parse username h m line
      = Except.ok (some (Payload.message username c (strftime_HM h m))) := by
    simp [handle_line, hblank, hp]
  refine ⟨?_, strftime_HM_ne_empty h m⟩
  simp [process_lines, hline,
    broadcast_message_clean fuel failing clients
      (Payload.message username c (strftime_HM h m)) hclean]

/-- C1 amended witness: a `{"type": "message", "content": "hi"}` line
(with a client-supplied `sender` field that is ignored) from "alice" at
07:03 is broadcast once to each of the two registered sinks, including
alice's own, with `sender = "alice"`. -/
theorem C1_message_broadcast_amended_witness :
    (['x'].all Char.isWhitespace = false) ∧
    ((fun _ => Parsed.obj (some "message") (some "hi") (some "mallory")) ['x']
      = Parsed.obj (some "message") (some "hi") (some "mallory")) ∧
    process_lines 1 (fun _ => false)
        (fun _ => Parsed.obj (some "message") (some "hi") (some "mallory"))
        "alice" 7 3 [("alice", 5), ("bob", 6)] [['x']]
      = ([("alice", 5), ("bob", 6)],
         [Event.sent 5 (Payload.message "alice" "hi" "07:03"),
          Event.sent 6 (Payload.message "alice" "hi" "07:03")],
         true) := by
  have h := C1_message_broadcast_amended 1 (fun _ => false)
    (fun _ => Parsed.obj (some "message") (some "hi") (some "mallory"))
    "alice" 7 3 "hi" (some "mallory") ['x'] [("alice", 5), ("bob", 6)] []
    (by decide) (by decide) (by decide)
  refine ⟨by decide, by decide, ?_⟩
  rw [h.1]
  decide

/-- C1 counterexample: a `{"type": "message", "content": ""}` line with
empty content IS broadcast — the code never checks `content` for
emptiness — refuting the claim's final sentence that an empty-content
message record is not broadcast. -/
theorem C1_empty_content_is_broadcast :
    process_lines 1 (fun _ => false)
        (fun _ => Parsed.obj (some "message") (some "") (some "mallory"))
        "alice" 7 3 [("alice", 5)] [['x']]
      = ([("alice", 5)],
         [Event.sent 5 (Payload.message "alice" "" "07:03")],
         true) := by decide

/-- C3 amended: a received line that fails to parse, or parses to a JSON
object whose `type` is not `"message"`, is silently discarded: it yields
no broadcast, does not close the connection, the framing buffer is not
corrupted, and parsing resumes cleanly at the next line terminator — a
receive whose bytes are `bad ++ '\n' ++ tail` behaves exactly like a
receive of `tail` alone on an empty buffer.  (The original claim's "a
parsed payload of any other shape" is too broad: a parsed object with
`type = "message"` but no `content` field raises `KeyError` and
terminates the session — see the counterexample.) -/
theorem C3_bad_line_discarded_amended (fuel : Nat) (failing : Nat → Bool)
    (parse : List Char → Parsed) (username : String) (h m : Nat)
    (clients : Registry) (bad buffer data tail : List Char)
    (ls : List (List Char))
    (hshape : parse bad = Parsed.invalid ∨
      ∃ ty c sd, parse bad = Parsed.obj ty c sd ∧ ty ≠ some "message")
    (hnl : '\n' ∉ bad)
    (heq : buffer ++ data = bad ++ '\n' :: tail)
    (hdata : data ≠ []) (htail : tail ≠ []) :
    handle_line parse username h m bad = Except.ok none ∧
    process_lines fuel failing parse username h m clients (bad :: ls)
      = process_lines fuel failing parse username h m clients ls ∧
    recv_step fuel failing parse username h m clients buffer data
      = recv_step fuel failing parse username h m clients [] tail := by
  have hline : handle_line parse username h m bad = Except.ok none := by
    by_cases hw : bad.all Char.isWhitespace
    · simp [handle_line, hw]
    · rcases hshape with hinv | ⟨ty, c, sd, hobj, hne⟩
      · simp [handle_line, hw, hinv]
      · simp [handle_line, hw, hobj, hne]
  have hproc : ∀ ls' : List (List Char),
      process_lines fuel failing parse username h m clients (bad :: ls')
        = process_lines fuel failing parse username h m clients ls' := by
    intro ls'
    simp [process_lines, hline]
  refine ⟨hline, hproc ls, ?_⟩
  obtain ⟨d, ds, rfl⟩ : ∃ d ds, data = d :: ds := by
    cases data with
    | nil => exact absurd rfl hdata
    | cons d ds => exact ⟨d, ds, rfl⟩
  obtain ⟨t, ts, rfl⟩ : ∃ t ts, tail = t :: ts := by
    cases tail with
    | nil => exact absurd rfl htail
    | cons t ts => exact ⟨t, ts, rfl⟩
  simp only [recv_step, heq, split_lines_append bad _ hnl,
    List.isEmpty_cons, List.nil_append, Bool.false_eq_true, if_false,
    hproc]

/-- C3 counterexample: a parsed payload of shape `{"type": "message"}`
with no `content` field is NOT silently discarded: `pkt["content"]`
raises `KeyError`, the bare `except` fires, "alice" is removed from the
registry (with the cascading presence broadcast) and the listening loop
breaks — the session is torn down, refuting "the connection is not
closed" for that payload shape. -/
theorem C3_missing_content_disconnects :
    process_lines 1 (fun _ => false)
        (fun _ => Parsed.obj (some "message") none none)
        "alice" 7 3 [("alice", 5), ("bob", 6)] [['x']]
      = ([("bob", 6)],
         [Event.presence ["bob"], Event.sent 6 (Payload.user_list ["bob"])],
         false) := by decide

/-- C3 amended witness: with a parse function that rejects the line "x",
the receive of bytes "x\nz" on an empty buffer is indistinguishable from
a receive of "z": the bad line produces nothing and framing resumes at
the next terminator. -/
theorem C3_bad_line_discarded_amended_witness :
    ((fun l => if l = ['x'] then Parsed.invalid else Parsed.nonDict) ['x']
        = Parsed.invalid) ∧
    ('\n' ∉ ['x']) ∧
    handle_line (fun l => if l = ['x'] then Parsed.invalid else Parsed.nonDict)
        "alice" 7 3 ['x'] = Except.ok none ∧
    recv_step 1 (fun _ => false)
        (fun l => if l = ['x'] then Parsed.invalid else Parsed.nonDict)
        "alice" 7 3 [("alice", 5)] [] ['x', '\n', 'z']
      = recv_step 1 (fun _ => false)
        (fun l => if l = ['x'] then Parsed.invalid else Parsed.nonDict)
        "alice" 7 3 [("alice", 5)] [] ['z'] := by
  have h := C3_bad_line_discarded_amended 1 (fun _ => false)
    (fun l => if l = ['x'] then Parsed.invalid else Parsed.nonDict)
    "alice" 7 3 [("alice", 5)] ['x'] [] ['x', '\n', 'z'] ['z'] []
    (Or.inl (by decide)) (by decide) (by decide) (by decide) (by decide)
  exact ⟨by decide, by decide, h.1, h.2.2⟩
